import Mathlib

/-!
Verification development for the durable-workflow examples repository.

The repository's examples are thin consumers of an external workflow engine.
Definitions below are of two kinds:
  * shallow embeddings of the example code itself (cart validator and update
    handlers, the trip-booking saga, the signup workflows, the activities),
    translated directly from the Python sources; and
  * models of the engine behaviour the examples rely on (update routing,
    retry/backoff, replay, patching), which is not part of the repository:
    those definitions carry a doc comment starting `Modelled from the spec:`.

Python `Decimal` amounts in the cart example always carry two fractional
digits, so money is embedded as an exact integer number of cents.
-/

namespace Cart

/-- CartItem from `update_example.py`: sku, name, quantity, price.
The price is in cents (`Decimal` with exponent -2 in the source). -/
structure CartItem where
  sku : String
  name : String
  quantity : Int
  price : Int
  deriving DecidableEq, Repr

/-- The workflow-owned state of `ShoppingCartWorkflow`: `self.items` and
`self.total` (total in cents). -/
structure CartState where
  items : List CartItem
  total : Int
  deriving DecidableEq, Repr

/-- Initial state from `ShoppingCartWorkflow.__init__`: empty items,
total `Decimal("0.00")`. -/
def initialCart : CartState := { items := [], total := 0 }

/-- Renders a cents amount the way `str` prints a two-fractional-digit
`Decimal`, e.g. `1000 ↦ "10.00"`. -/
def formatCents (c : Int) : String :=
  let sign := if c < 0 then "-" else ""
  let n := c.natAbs
  let frac := n % 100
  sign ++ toString (n / 100) ++ "." ++ (if frac < 10 then "0" else "") ++ toString frac

/-- Query `get_total` from `ShoppingCartWorkflow`. -/
def get_total (s : CartState) : String := formatCents s.total

/-- Query `get_item_count` from `ShoppingCartWorkflow`. -/
def get_item_count (s : CartState) : Nat := s.items.length

/-- Validator `validate_add_item` from `ShoppingCartWorkflow`, with the checks
in source order; `some msg` is the raised `ValueError` message, `none` means
the update is accepted for execution. -/
def validate_add_item (s : CartState) (item : CartItem) : Option String :=
  if item.sku = "" then some "Item SKU is required"
  else if item.quantity ≤ 0 then some "Quantity must be positive"
  else if item.quantity > 99 then some "Maximum quantity per item is 99"
  else if item.price ≤ 0 then some "Price must be positive"
  else if s.items.length ≥ 50 then some "Cart is full (maximum 50 items)"
  else if s.items.any (fun i => i.sku = item.sku) then
    some ("Item " ++ item.sku ++ " already in cart")
  else none

/-- Handler body of `add_item` after the `check_inventory` activity returned
`available`: raise out-of-stock, or append the item and bump the total. -/
def add_item_body (available : Bool) (s : CartState) (item : CartItem) :
    Except String CartState :=
  if available = false then .error ("Item " ++ item.sku ++ " is out of stock")
  else .ok { items := s.items ++ [item], total := s.total + item.price * item.quantity }

/-- Handler body of `remove_item`: find the first item with the sku, error if
absent, otherwise remove it and subtract its line total. -/
def remove_item (s : CartState) (sku : String) : Except String CartState :=
  match s.items.find? (fun i => i.sku = sku) with
  | none => .error ("Item " ++ sku ++ " not found in cart")
  | some it =>
      .ok { items := s.items.eraseP (fun i => i.sku = sku),
            total := s.total - it.price * it.quantity }

/-- Outcome of an update request as seen by the caller. -/
inductive UpdateOutcome where
  | rejected (reason : String)
  | failed (reason : String)
  | accepted (newTotal : String)
  deriving DecidableEq, Repr

/-- Durable records an update may append. -/
inductive CartEvent where
  | updateAccepted
  | updateCompleted
  deriving DecidableEq, Repr

/-- Result of routing one update: next state, caller-visible outcome, and the
durable events appended. -/
structure UpdateResult where
  state : CartState
  outcome : UpdateOutcome
  durable : List CartEvent
  deriving Repr

/-- Modelled from the spec: the Handler Router's two-phase update contract
(§4.4), which is engine code outside the repository. Phase 1 runs
`validate_add_item` against current state; on rejection the caller gets the
rejection, no state change and nothing durable. Phase 2 runs the `add_item`
body (the inventory-check activity result is the `available` argument) and
appends the acceptance/completion records. -/
def process_add_item (available : Bool) (s : CartState) (item : CartItem) :
    UpdateResult :=
  match validate_add_item s item with
  | some reason => { state := s, outcome := .rejected reason, durable := [] }
  | none =>
      match add_item_body available s item with
      | .error reason =>
          { state := s, outcome := .failed reason,
            durable := [.updateAccepted, .updateCompleted] }
      | .ok s' =>
          { state := s', outcome := .accepted (get_total s'),
            durable := [.updateAccepted, .updateCompleted] }

/-- Line total of an items list: the sum over the items of price × quantity. -/
def lineSum (l : List CartItem) : Int :=
  (l.map (fun i => i.price * i.quantity)).sum

/-- One caller-issued cart update: an `add_item` request (with the inventory
availability the `check_inventory` activity will report) or a `remove_item`
request. -/
inductive CartOp where
  | add (available : Bool) (item : CartItem)
  | remove (sku : String)
  deriving Repr

/-- State transition of one update: rejected or failed updates leave the state
unchanged, accepted ones apply the handler body. -/
def applyOp (s : CartState) (op : CartOp) : CartState :=
  match op with
  | .add available item => (process_add_item available s item).state
  | .remove sku =>
      match remove_item s sku with
      | .ok s' => s'
      | .error _ => s

/-- State after a sequence of updates starting from the fresh cart. -/
def runOps (ops : List CartOp) : CartState :=
  ops.foldl applyOp initialCart

/-- Effect of the `add_item` handler body on the cart state (errors leave the
state unchanged). -/
def add_item_effect (available : Bool) (item : CartItem) (s : CartState) : CartState :=
  match add_item_body available s item with
  | .ok s' => s'
  | .error _ => s

/-- Effect of the `remove_item` handler body on the cart state (errors leave
the state unchanged). -/
def remove_item_effect (sku : String) (s : CartState) : CartState :=
  match remove_item s sku with
  | .ok s' => s'
  | .error _ => s

/-- Modelled from the spec: the engine's cooperative scheduler (§5), which is
not part of the repository. A handler is a list of atomic segments separated
by await points; the scheduler may run the segments of two concurrent handlers
in any order that preserves each handler's own segment order. -/
def interleavings {α : Type} : List α → List α → List (List α)
  | [], ys => [ys]
  | x :: xs, [] => [x :: xs]
  | x :: xs, y :: ys =>
      ((interleavings xs (y :: ys)).map (fun l => x :: l)) ++
      ((interleavings (x :: xs) ys).map (fun l => y :: l))
termination_by xs ys => xs.length + ys.length

/-- All states a query could observe while running a segment schedule from
state `s`: the state before each segment and the final state. -/
def trace (s : CartState) : List (CartState → CartState) → List CartState
  | [] => [s]
  | f :: fs => s :: trace (f s) fs

/-- Final state of a segment schedule. -/
def runSched (s : CartState) (l : List (CartState → CartState)) : CartState :=
  l.foldl (fun st f => f st) s

/-- Segment decomposition of the `add_item` handler body: it suspends exactly
once, awaiting the `check_inventory` activity inside the lock (no mutation up
to that point), and performs all of its state mutation in the single
synchronous segment after the await. -/
def add_item_segments (available : Bool) (item : CartItem) :
    List (CartState → CartState) :=
  [fun s => s, add_item_effect available item]

/-- Segment decomposition of the `remove_item` handler body: it is synchronous
(no await), a single atomic segment. -/
def remove_item_segments (sku : String) : List (CartState → CartState) :=
  [remove_item_effect sku]

/-- States reachable under some serial order of two whole updates `f` and `g`
from `s`: before both, after one, and after both in either order. -/
def serialStates (f g : CartState → CartState) (s : CartState) : List CartState :=
  [s, f s, g s, f (g s), g (f s)]

/-- Cart-total invariant: the running total equals the line total of the
items. -/
def cartInv (s : CartState) : Prop :=
  s.total = lineSum s.items

/-- The first item of the claimed cart scenario: sku "A", quantity 1,
price 10.00. -/
def itemA : CartItem := { sku := "A", name := "A", quantity := 1, price := 1000 }

end Cart

namespace Saga

/-- BookingRequest from `saga_pattern_example.py`. -/
structure BookingRequest where
  user_id : String
  car_id : String
  hotel_id : String
  flight_id : String
  deriving DecidableEq, Repr

/-- BookingResult from `saga_pattern_example.py`. -/
structure BookingResult where
  success : Bool
  car_booking : Option String
  hotel_booking : Option String
  flight_booking : Option String
  error : Option String
  deriving DecidableEq, Repr

/-- Decides whether the first character list is an initial run of the second. -/
def beginsWith : List Char → List Char → Bool
  | [], _ => true
  | _ :: _, [] => false
  | a :: as, b :: bs => a = b && beginsWith as bs

/-- Decides whether `needle` occurs contiguously inside the second list. -/
def occursIn (needle : List Char) : List Char → Bool
  | [] => beginsWith needle []
  | b :: bs => beginsWith needle (b :: bs) || occursIn needle bs

/-- Python's substring test `needle in hay`. -/
def strIn (needle hay : String) : Bool := occursIn needle.data hay.data

/-- Forward activity `book_car`: fails when the id contains "invalid",
otherwise returns the booking id. -/
def book_car (car_id : String) : Except String String :=
  if strIn "invalid" car_id then .error ("Invalid car ID: " ++ car_id)
  else .ok ("car_booking_" ++ car_id)

/-- Forward activity `book_hotel`. -/
def book_hotel (hotel_id : String) : Except String String :=
  if strIn "invalid" hotel_id then .error ("Invalid hotel ID: " ++ hotel_id)
  else .ok ("hotel_booking_" ++ hotel_id)

/-- Forward activity `book_flight`. -/
def book_flight (flight_id : String) : Except String String :=
  if strIn "invalid" flight_id then .error ("Invalid flight ID: " ++ flight_id)
  else .ok ("flight_booking_" ++ flight_id)

/-- Outcomes of the activity invocations observed by one saga run. Each
forward step yields a booking id or surfaces an `ActivityError` message after
the engine's retries; each compensation, invoked with a booking id, succeeds
or surfaces an `ActivityError` message. Activities are external fallible
collaborators, so the workflow sees them only through these outcomes. -/
structure SagaEnv where
  car : Except String String
  hotel : Except String String
  flight : Except String String
  undo_car : String → Except String Unit
  undo_hotel : String → Except String Unit
  undo_flight : String → Except String Unit

/-- Dispatches a compensation activity by name, as stored on the
`compensations` stack. -/
def run_compensation (env : SagaEnv) (name bid : String) : Except String Unit :=
  if name = "undo_book_car" then env.undo_car bid
  else if name = "undo_book_hotel" then env.undo_hotel bid
  else if name = "undo_book_flight" then env.undo_flight bid
  else .ok ()

/-- The compensation loop of `TripBookingSaga.run`: each entry of the (already
reversed) stack is attempted inside its own try/except, so a failing
compensation is logged and the loop continues with the rest. Returns the
attempted calls in execution order as (activity name, booking id, succeeded). -/
def run_compensations (env : SagaEnv) : List (String × String) → List (String × String × Bool)
  | [] => []
  | (name, bid) :: rest =>
      match run_compensation env name bid with
      | .ok _ => (name, bid, true) :: run_compensations env rest
      | .error _ => (name, bid, false) :: run_compensations env rest

/-- `TripBookingSaga.run`: book car, hotel, flight in order, pushing a
compensation onto the stack after each success; on the first failure, run the
stacked compensations in reverse (LIFO) order and return the failed result.
Returns the `BookingResult` and the attempted compensation calls. -/
def TripBookingSaga_run (env : SagaEnv) (_req : BookingRequest) :
    BookingResult × List (String × String × Bool) :=
  match env.car with
  | .error e =>
      ({ success := false, car_booking := none, hotel_booking := none,
         flight_booking := none, error := some e },
       run_compensations env ([] : List (String × String)).reverse)
  | .ok carId =>
    match env.hotel with
    | .error e =>
        ({ success := false, car_booking := some carId, hotel_booking := none,
           flight_booking := none, error := some e },
         run_compensations env [("undo_book_car", carId)].reverse)
    | .ok hotelId =>
      match env.flight with
      | .error e =>
          ({ success := false, car_booking := some carId,
             hotel_booking := some hotelId, flight_booking := none,
             error := some e },
           run_compensations env
             [("undo_book_car", carId), ("undo_book_hotel", hotelId)].reverse)
      | .ok flightId =>
          ({ success := true, car_booking := some carId,
             hotel_booking := some hotelId, flight_booking := some flightId,
             error := none }, [])

/-- The failed-booking request of Test 2 in `run_saga_example`. -/
def test2Request : BookingRequest :=
  { user_id := "user-456", car_id := "car-002", hotel_id := "hotel-002",
    flight_id := "invalid-flight" }

/-- Environment realised by the source activities, with the compensation
activities of the source (which always succeed). -/
def sourceEnv (req : BookingRequest) : SagaEnv :=
  { car := book_car req.car_id,
    hotel := book_hotel req.hotel_id,
    flight := book_flight req.flight_id,
    undo_car := fun _ => .ok (),
    undo_hotel := fun _ => .ok (),
    undo_flight := fun _ => .ok () }

end Saga

namespace Retry

/-- RetryPolicy value from the spec's data model: intervals in seconds as
exact rationals, `maximum_attempts` a natural number (the unlimited case
`maximum_attempts = 0` is outside this model, no claim needs it), and the set
of non-retryable error kinds. -/
structure RetryPolicy where
  initial_interval : ℚ
  backoff_coefficient : ℚ
  maximum_interval : ℚ
  maximum_attempts : Nat
  non_retryable_error_types : List String
  deriving DecidableEq, Repr

/-- ApplicationError raised by activity logic: message, kind tag, and the
explicit non-retryable flag. -/
structure AppError where
  message : String
  etype : String
  non_retryable : Bool
  deriving DecidableEq, Repr

/-- ActivityError surfaced to the calling workflow, wrapping the final
attempt's cause. It is an ordinary value the workflow can catch. -/
structure ActivityError where
  cause : AppError
  deriving DecidableEq, Repr

/-- Modelled from the spec: the Activity Invoker's backoff law (§4.5), engine
code outside the repository. The delay inserted after a failed attempt `n`
(i.e. before attempt `n+1`) is
min(initial_interval × backoff_coefficient ^ (n - 1), maximum_interval). -/
def retryDelay (p : RetryPolicy) (attempt : Nat) : ℚ :=
  min (p.initial_interval * p.backoff_coefficient ^ (attempt - 1)) p.maximum_interval

/-- Modelled from the spec: the Activity Invoker's retryability test (§4.5).
A failure is retried unless its explicit non-retryable flag is set or its
error kind is in the policy's non-retryable set. -/
def retryable (p : RetryPolicy) (e : AppError) : Bool :=
  !e.non_retryable && !(p.non_retryable_error_types.contains e.etype)

/-- Modelled from the spec: the Activity Invoker's attempt loop (§4.5), engine
code outside the repository. `act` maps the attempt number (visible to the
activity) to that attempt's outcome; `rem` is the number of further attempts
the policy still allows. Returns the surfaced outcome, the number of attempts
executed, and the inter-attempt delays in order. -/
def invokeGo (p : RetryPolicy) (act : Nat → Except AppError α) :
    Nat → Nat → Except ActivityError α × Nat × List ℚ
  | attempt, 0 =>
      (match act attempt with
       | .ok a => .ok a
       | .error e => .error { cause := e }, attempt, [])
  | attempt, rem + 1 =>
      match act attempt with
      | .ok a => (.ok a, attempt, [])
      | .error e =>
          if retryable p e then
            let rest := invokeGo p act (attempt + 1) rem
            (rest.1, rest.2.1, retryDelay p attempt :: rest.2.2)
          else (.error { cause := e }, attempt, [])

/-- Modelled from the spec: `invoke(activity_ref, args, RetryPolicy)` (§4.5),
starting at attempt 1 with `maximum_attempts` total attempts allowed. -/
def invoke (p : RetryPolicy) (act : Nat → Except AppError α) :
    Except ActivityError α × Nat × List ℚ :=
  invokeGo p act 1 (p.maximum_attempts - 1)

/-- Activity `non_retryable_operation` from `retry_policy_example.py`: every
attempt raises `ApplicationError(type="ValidationError", non_retryable=True)`. -/
def non_retryable_operation (_attempt : Nat) : Except AppError String :=
  .error { message := "This error should not be retried",
           etype := "ValidationError", non_retryable := true }

/-- The retry policy of the claim's scenario: maximum_attempts = 3,
initial_interval = 1 s, backoff_coefficient = 2.0, with the engine's default
maximum_interval of 100 × initial_interval. -/
def demoPolicy : RetryPolicy :=
  { initial_interval := 1, backoff_coefficient := 2, maximum_interval := 100,
    maximum_attempts := 3, non_retryable_error_types := [] }

/-- The policy of Test 4 in `RetryPolicyDemoWorkflow.run`:
RetryPolicy(maximum_attempts=5) with engine defaults. -/
def test4Policy : RetryPolicy :=
  { initial_interval := 1, backoff_coefficient := 2, maximum_interval := 100,
    maximum_attempts := 5, non_retryable_error_types := [] }

/-- Failure raised by `flaky_operation` on attempt `n`:
ApplicationError(f"Random failure on attempt {attempt}", type="TransientError"). -/
def transientError (n : Nat) : AppError :=
  { message := "Random failure on attempt " ++ toString n,
    etype := "TransientError", non_retryable := false }

/-- `flaky_operation` in the run where every attempt fails. -/
def transientFailure (n : Nat) : Except AppError String :=
  .error (transientError n)

/-- The error raised by `non_retryable_operation`. -/
def nrError : AppError :=
  { message := "This error should not be retried",
    etype := "ValidationError", non_retryable := true }

end Retry

namespace Replay

/-- UserData from `replay_testing_example.py`. -/
structure UserData where
  user_id : String
  name : String
  email : String
  deriving DecidableEq, Repr

/-- Result dictionary of the signup workflows; absent keys are `none`. -/
structure SignupResult where
  success : Bool
  error : Option String
  account_id : Option String
  welcome_sent : Option Bool
  version : Option String
  deriving DecidableEq, Repr

/-- Order from `versioning_patching_example.py`; the float amount is embedded
as an exact rational. -/
structure Order where
  order_id : String
  amount : ℚ
  customer_id : String
  deriving DecidableEq, Repr

/-- PaymentResult from `versioning_patching_example.py`. -/
structure PaymentResult where
  success : Bool
  transaction_id : String
  deriving DecidableEq, Repr

/-- FraudCheckResult from `versioning_patching_example.py`. -/
structure FraudCheckResult where
  is_safe : Bool
  risk_score : ℚ
  reason : Option String
  deriving DecidableEq, Repr

/-- Result dictionary of `OrderWorkflowVersioned.run`; keys added later in the
run are `none` until set. -/
structure OrderResult where
  order_id : String
  version : String
  fraud_checked : Bool
  notification_sent : Bool
  transaction_id : Option String
  risk_score : Option ℚ
  status : Option String
  deriving DecidableEq, Repr

/-- Payload values exchanged between workflows, activities and the log. -/
inductive Val where
  | vstr (s : String)
  | vbool (b : Bool)
  | vuser (u : UserData)
  | vorder (o : Order)
  | vpayment (p : PaymentResult)
  | vfraud (f : FraudCheckResult)
  | vpair (a b : String)
  | vsignup (r : SignupResult)
  | vorderres (r : OrderResult)
  | vunit
  deriving DecidableEq, Repr

/-- Bool payload projection (the oracle and the log always supply the right
variant, so the default is never observed). -/
def Val.asBool : Val → Bool
  | .vbool b => b
  | _ => false

/-- String payload projection. -/
def Val.asStr : Val → String
  | .vstr s => s
  | _ => ""

/-- PaymentResult payload projection. -/
def Val.asPayment : Val → PaymentResult
  | .vpayment p => p
  | _ => { success := false, transaction_id := "" }

/-- FraudCheckResult payload projection. -/
def Val.asFraud : Val → FraudCheckResult
  | .vfraud f => f
  | _ => { is_safe := false, risk_score := 0, reason := none }

/-- Workflow code as the sequence of engine primitives it invokes: finish with
a result, execute an activity and continue with its result, or query
`workflow.patched` and continue with its answer. -/
inductive WProg (α : Type) where
  | done (a : α)
  | execActivity (name : String) (arg : Val) (k : Val → WProg α)
  | patched (id : String) (k : Bool → WProg α)

/-- Events of one execution's append-only log (spec §3). -/
inductive Event where
  | workflowStarted (input : Val)
  | activityScheduled (name : String) (arg : Val)
  | activityCompleted (result : Val)
  | patchMarker (id : String)
  | workflowCompleted (result : Val)
  deriving DecidableEq, Repr

/-- Commands issued by workflow code during one execution pass (spec §3). -/
inductive Command where
  | scheduleActivity (name : String) (arg : Val)
  | recordPatchMarker (id : String)
  | completeWorkflow (result : Val)
  deriving DecidableEq, Repr

/-- Replay failures (spec §4.2/§7). -/
inductive ReplayError where
  | nonDeterminism
  | incompleteHistory
  deriving DecidableEq, Repr

/-- Modelled from the spec: a fresh (non-replay) execution pass of the engine,
which is not part of the repository (§4.2, §4.5 happy path, §4.6). Activities
are resolved by the oracle `acts` and recorded as scheduled/completed event
pairs; `patched` records a PatchMarker and answers true; completion records
the result. Returns the result, the appended events, and the issued commands. -/
def execute (enc : α → Val) (acts : String → Val → Val) :
    WProg α → α × List Event × List Command
  | .done a => (a, [.workflowCompleted (enc a)], [.completeWorkflow (enc a)])
  | .execActivity n arg k =>
      let r := acts n arg
      let rest := execute enc acts (k r)
      (rest.1, .activityScheduled n arg :: .activityCompleted r :: rest.2.1,
       .scheduleActivity n arg :: rest.2.2)
  | .patched id k =>
      let rest := execute enc acts (k true)
      (rest.1, .patchMarker id :: rest.2.1, .recordPatchMarker id :: rest.2.2)

/-- Log recorded by a fresh execution, starting with the WorkflowStarted
event. -/
def freshHistory (enc : α → Val) (acts : String → Val → Val) (prog : WProg α)
    (input : Val) : List Event :=
  .workflowStarted input :: (execute enc acts prog).2.1

/-- Modelled from the spec: the Deterministic Replay Executor (§4.2) and the
replay side of the Versioning Gate (§4.6), engine code outside the repository.
Workflow code is driven against the recorded log: an activity command must
match the next ActivityScheduled event (else `NonDeterminismError`) and takes
its result from the paired ActivityCompleted event; `patched` answers true
only when the marker for that patch id is present at this point of the log,
and false otherwise, without consuming anything. -/
def replayGo (enc : α → Val) :
    WProg α → List Event → Except ReplayError (α × List Command)
  | .done a, _ => .ok (a, [.completeWorkflow (enc a)])
  | .execActivity n arg k, evs =>
      match evs with
      | .activityScheduled n' arg' :: rest =>
          if n = n' ∧ arg = arg' then
            match rest with
            | .activityCompleted r :: rest' =>
                match replayGo enc (k r) rest' with
                | .ok rc => .ok (rc.1, .scheduleActivity n arg :: rc.2)
                | .error e => .error e
            | _ => .error .incompleteHistory
          else .error .nonDeterminism
      | _ => .error .nonDeterminism
  | .patched id k, evs =>
      match evs with
      | .patchMarker pid :: rest =>
          if pid = id then
            match replayGo enc (k true) rest with
            | .ok rc => .ok (rc.1, .recordPatchMarker id :: rc.2)
            | .error e => .error e
          else replayGo enc (k false) evs
      | _ => replayGo enc (k false) evs

/-- Replay of a full recorded log: the leading WorkflowStarted event is
consumed, then the code is driven against the rest. -/
def replay (enc : α → Val) (prog : WProg α) (log : List Event) :
    Except ReplayError (α × List Command) :=
  match log with
  | .workflowStarted _ :: rest => replayGo enc prog rest
  | _ => replayGo enc prog log

/-- Activity `validate_user`: the email is nonempty and contains "@". -/
def validate_user (u : UserData) : Bool :=
  (!(u.email = "")) && Saga.strIn "@" u.email

/-- Activity `create_account`. -/
def create_account (u : UserData) : String := "account_" ++ u.user_id

/-- Activity registry of `replay_testing_example.py` (`send_welcome_email`
returns None). -/
def signupActs : String → Val → Val
  | "validate_user", .vuser u => .vbool (validate_user u)
  | "create_account", .vuser u => .vstr (create_account u)
  | _, _ => .vunit

/-- `UserSignupWorkflowV1.run`: validate, then create the account. -/
def UserSignupWorkflowV1_run (u : UserData) : WProg SignupResult :=
  .execActivity "validate_user" (.vuser u) fun v =>
    if v.asBool = false then
      .done { success := false, error := some "Invalid user data",
              account_id := none, welcome_sent := none, version := none }
    else
      .execActivity "create_account" (.vuser u) fun a =>
        .done { success := true, error := none, account_id := some a.asStr,
                welcome_sent := none, version := some "v1" }

/-- `UserSignupWorkflowV2.run`: as v1, then the "send-welcome-email" patch
gates the new welcome-email activity. -/
def UserSignupWorkflowV2_run (u : UserData) : WProg SignupResult :=
  .execActivity "validate_user" (.vuser u) fun v =>
    if v.asBool = false then
      .done { success := false, error := some "Invalid user data",
              account_id := none, welcome_sent := none, version := none }
    else
      .execActivity "create_account" (.vuser u) fun a =>
        .patched "send-welcome-email" fun b =>
          if b then
            .execActivity "send_welcome_email" (.vstr u.email) fun _ =>
              .done { success := true, error := none, account_id := some a.asStr,
                      welcome_sent := some true, version := some "v2" }
          else
            .done { success := true, error := none, account_id := some a.asStr,
                    welcome_sent := some false, version := some "v2" }

/-- `UserSignupWorkflowV2Bad.run`: breaks determinism by invoking
`create_account` before `validate_user`. -/
def UserSignupWorkflowV2Bad_run (u : UserData) : WProg SignupResult :=
  .execActivity "create_account" (.vuser u) fun a =>
    .execActivity "validate_user" (.vuser u) fun v =>
      if v.asBool = false then
        .done { success := false, error := some "Invalid user data",
                account_id := none, welcome_sent := none, version := none }
      else
        .done { success := true, error := none, account_id := some a.asStr,
                welcome_sent := none, version := some "v2-bad" }

/-- Encoder of signup results into log payloads. -/
def encSignup : SignupResult → Val := .vsignup

/-- The log recorded by running `UserSignupWorkflowV1` fresh on `u`. -/
def historyV1 (u : UserData) : List Event :=
  freshHistory encSignup signupActs (UserSignupWorkflowV1_run u) (.vuser u)

/-- The test user of `test_workflow_replay`. -/
def testUser : UserData :=
  { user_id := "user-test-001", name := "Test User", email := "test@example.com" }

/-- Activity `process_payment`: always succeeds with txn_<order_id>. -/
def process_payment (o : Order) : PaymentResult :=
  { success := true, transaction_id := "txn_" ++ o.order_id }

/-- Activity `check_fraud`: risk 0.1 below an amount of 1000, else 0.8; safe
when the risk is below 0.5. -/
def check_fraud (o : Order) : FraudCheckResult :=
  let risk : ℚ := if o.amount < 1000 then 1/10 else 8/10
  let safe := risk < 1/2
  { is_safe := safe, risk_score := risk,
    reason := if safe then none else some "High amount transaction" }

/-- Activity registry of `versioning_patching_example.py` (the notification
and confirmation activities return None). -/
def orderActs : String → Val → Val
  | "process_payment", .vorder o => .vpayment (process_payment o)
  | "check_fraud", .vorder o => .vfraud (check_fraud o)
  | _, _ => .vunit

/-- Notification message of `OrderWorkflowVersioned.run` (Python's float
rendering of the amount is abstracted by the rational's rendering). -/
def notifMessage (o : Order) : String :=
  "Your order $" ++ toString o.amount ++ " has been confirmed!"

/-- Tail of `OrderWorkflowVersioned.run` after the fraud-check section: the
"add-notification-v1" patch gates the notification, then the confirmation is
sent and the result completed. -/
def OrderWorkflow_afterFraud (o : Order) (txn ver : String) (checked : Bool)
    (risk : Option ℚ) : WProg OrderResult :=
  .patched "add-notification-v1" fun b =>
    if b then
      .execActivity "send_notification" (.vpair o.order_id (notifMessage o)) fun _ =>
        .execActivity "send_confirmation" (.vpair o.order_id txn) fun _ =>
          .done { order_id := o.order_id, version := "v3", fraud_checked := checked,
                  notification_sent := true, transaction_id := some txn,
                  risk_score := risk, status := some "COMPLETED" }
    else
      .execActivity "send_confirmation" (.vpair o.order_id txn) fun _ =>
        .done { order_id := o.order_id, version := ver, fraud_checked := checked,
                notification_sent := false, transaction_id := some txn,
                risk_score := risk, status := some "COMPLETED" }

/-- `OrderWorkflowVersioned.run`: process the payment, then the
"add-fraud-check-v1" patch gates the fraud check (with early FRAUD_REJECTED
return), then the notification patch and the confirmation. -/
def OrderWorkflowVersioned_run (o : Order) : WProg OrderResult :=
  .execActivity "process_payment" (.vorder o) fun p =>
    .patched "add-fraud-check-v1" fun b =>
      if b then
        .execActivity "check_fraud" (.vorder o) fun f =>
          if f.asFraud.is_safe = false then
            .done { order_id := o.order_id, version := "v2", fraud_checked := true,
                    notification_sent := false,
                    transaction_id := some p.asPayment.transaction_id,
                    risk_score := some f.asFraud.risk_score,
                    status := some "FRAUD_REJECTED" }
          else
            OrderWorkflow_afterFraud o p.asPayment.transaction_id "v2" true
              (some f.asFraud.risk_score)
      else
        OrderWorkflow_afterFraud o p.asPayment.transaction_id "v1" false none

/-- Encoder of order results into log payloads. -/
def encOrder : OrderResult → Val := .vorderres

/-- The small order of Test 1 in `run_patching_example`. -/
def testOrder : Order :=
  { order_id := "order-001", amount := 500, customer_id := "customer-123" }

/-- Closed sample result used to instantiate continuations in witnesses. -/
def sampleResult : SignupResult :=
  { success := false, error := none, account_id := none,
    welcome_sent := none, version := none }

end Replay

theorem lineSum_append (l : List Cart.CartItem) (x : Cart.CartItem) :
    Cart.lineSum (l ++ [x]) = Cart.lineSum l + x.price * x.quantity := by
  simp [Cart.lineSum]

theorem lineSum_eraseP (sku : String) :
    ∀ (l : List Cart.CartItem) (it : Cart.CartItem),
      l.find? (fun i => i.sku = sku) = some it →
      Cart.lineSum (l.eraseP (fun i => i.sku = sku)) =
        Cart.lineSum l - it.price * it.quantity := by
  intro l
  induction l with
  | nil => intro it h; simp at h
  | cons x xs ih =>
      intro it h
      rw [List.find?_cons] at h
      rw [List.eraseP_cons]
      cases hpa : (decide (x.sku = sku)) with
      | true =>
          rw [hpa] at h
          simp only [] at h
          cases h
          simp [Cart.lineSum]
      | false =>
          rw [hpa] at h
          simp only [] at h
          simp only [hpa, cond_false]
          simp only [Cart.lineSum, List.map_cons, List.sum_cons] at ih ⊢
          rw [ih it h]
          ring

theorem applyOp_inv (s : Cart.CartState) (op : Cart.CartOp)
    (h : Cart.cartInv s) : Cart.cartInv (Cart.applyOp s op) := by
  cases op with
  | add available item =>
      simp only [Cart.applyOp, Cart.process_add_item]
      cases hv : Cart.validate_add_item s item with
      | some r => exact h
      | none =>
          simp only [Cart.add_item_body]
          by_cases hav : available = false
          · rw [if_pos hav]
            exact h
          · rw [if_neg hav]
            show Cart.cartInv
              (Cart.CartState.mk (s.items ++ [item]) (s.total + item.price * item.quantity))
            simp only [Cart.cartInv] at h ⊢
            rw [lineSum_append, h]
  | remove sku =>
      simp only [Cart.applyOp]
      cases hr : Cart.remove_item s sku with
      | error e => exact h
      | ok s' =>
          unfold Cart.remove_item at hr
          cases hf : s.items.find? (fun i => i.sku = sku) with
          | none => rw [hf] at hr; cases hr
          | some it =>
              rw [hf] at hr
              cases hr
              have := lineSum_eraseP sku s.items it hf
              simp only [Cart.cartInv] at h ⊢
              rw [this, h]

theorem runOps_inv (ops : List Cart.CartOp) :
    ∀ s : Cart.CartState, Cart.cartInv s → Cart.cartInv (ops.foldl Cart.applyOp s) := by
  induction ops with
  | nil => intro s h; exact h
  | cons op rest ih => intro s h; exact ih _ (applyOp_inv s op h)

/-- C10: in `ShoppingCartWorkflow`, after every sequence of `add_item` and
`remove_item` updates starting from the fresh empty cart (rejected or failed
updates leave the state unchanged), `self.total` equals the sum over
`self.items` of price × quantity, `get_total` returns exactly the decimal
string of that sum, and the empty cart's total renders as "0.00". -/
theorem cart_total_invariant_C10 (ops : List Cart.CartOp) :
    (Cart.runOps ops).total = Cart.lineSum (Cart.runOps ops).items ∧
    Cart.get_total (Cart.runOps ops) =
      Cart.formatCents (Cart.lineSum (Cart.runOps ops).items) ∧
    Cart.get_total Cart.initialCart = "0.00" := by
  have h : Cart.cartInv (Cart.runOps ops) := runOps_inv ops Cart.initialCart rfl
  refine ⟨h, ?_, rfl⟩
  rw [Cart.get_total, h]

/-- C4: whenever the `add_item` validator rejects, the update mutates nothing:
the state (items and total) is unchanged, the caller sees the rejection,
nothing durable is appended, and the `get_total` and `get_item_count` queries
answer exactly as before; moreover the validator rejects precisely on empty
sku, quantity ≤ 0, quantity > 99, price ≤ 0, a cart already holding 50 items,
or a duplicate sku. -/
theorem validator_purity_C4 :
    (∀ (s : Cart.CartState) (item : Cart.CartItem) (available : Bool) (reason : String),
        Cart.validate_add_item s item = some reason →
        (Cart.process_add_item available s item).state = s ∧
        (Cart.process_add_item available s item).outcome = .rejected reason ∧
        (Cart.process_add_item available s item).durable = [] ∧
        Cart.get_total (Cart.process_add_item available s item).state = Cart.get_total s ∧
        Cart.get_item_count (Cart.process_add_item available s item).state =
          Cart.get_item_count s) ∧
    (∀ (s : Cart.CartState) (item : Cart.CartItem),
        (Cart.validate_add_item s item).isSome ↔
          (item.sku = "" ∨ item.quantity ≤ 0 ∨ item.quantity > 99 ∨ item.price ≤ 0 ∨
           50 ≤ s.items.length ∨ ∃ i ∈ s.items, i.sku = item.sku)) := by
  constructor
  · intro s item available reason h
    simp [Cart.process_add_item, h]
  · intro s item
    unfold Cart.validate_add_item
    split_ifs with h1 h2 h3 h4 h5 h6 <;> simp_all [List.any_eq_true]

/-- Witness for C4: the empty-sku item is rejected by the validator on the
fresh cart and the update leaves the state untouched and appends nothing. -/
theorem validator_purity_C4_witness :
    (Cart.process_add_item true Cart.initialCart
        { sku := "", name := "X", quantity := 1, price := 1 }).state = Cart.initialCart ∧
    (Cart.process_add_item true Cart.initialCart
        { sku := "", name := "X", quantity := 1, price := 1 }).durable = [] :=
  ⟨(validator_purity_C4.1 Cart.initialCart
      { sku := "", name := "X", quantity := 1, price := 1 } true
      "Item SKU is required" rfl).1,
   (validator_purity_C4.1 Cart.initialCart
      { sku := "", name := "X", quantity := 1, price := 1 } true
      "Item SKU is required" rfl).2.2.1⟩

/-- C5: on the fresh cart, `add_item` of sku "A", quantity 1, price 10.00 with
inventory available is accepted and `get_total` answers "10.00"; a second
`add_item` with the same sku is rejected for the duplicate, the state is
unchanged and `get_total` still answers "10.00". -/
theorem cart_scenario_C5 :
    (Cart.process_add_item true Cart.initialCart Cart.itemA).outcome =
      Cart.UpdateOutcome.accepted "10.00" ∧
    Cart.get_total (Cart.process_add_item true Cart.initialCart Cart.itemA).state =
      "10.00" ∧
    (Cart.process_add_item true
        (Cart.process_add_item true Cart.initialCart Cart.itemA).state Cart.itemA).outcome =
      Cart.UpdateOutcome.rejected "Item A already in cart" ∧
    (Cart.process_add_item true
        (Cart.process_add_item true Cart.initialCart Cart.itemA).state Cart.itemA).state =
      (Cart.process_add_item true Cart.initialCart Cart.itemA).state ∧
    Cart.get_total (Cart.process_add_item true
        (Cart.process_add_item true Cart.initialCart Cart.itemA).state Cart.itemA).state =
      "10.00" := by
  exact ⟨rfl, rfl, rfl, rfl, rfl⟩

/-- C9: for every pair of concurrent updates among `add_item` and
`remove_item` on one cart execution, under every cooperative interleaving of
their atomic segments every state a query can observe is a state of some
serial order of the two whole updates (no interleaved partial mutation), and
the final state is that of one of the two serial orders. -/
theorem update_mutex_C9 (s : Cart.CartState) (av av2 : Bool)
    (it it2 : Cart.CartItem) (sk sk2 : String) :
    (∀ L ∈ Cart.interleavings (Cart.add_item_segments av it)
        (Cart.remove_item_segments sk),
        (∀ st ∈ Cart.trace s L,
            st ∈ Cart.serialStates (Cart.add_item_effect av it)
                  (Cart.remove_item_effect sk) s) ∧
        (Cart.runSched s L =
            Cart.add_item_effect av it (Cart.remove_item_effect sk s) ∨
         Cart.runSched s L =
            Cart.remove_item_effect sk (Cart.add_item_effect av it s))) ∧
    (∀ L ∈ Cart.interleavings (Cart.add_item_segments av it)
        (Cart.add_item_segments av2 it2),
        (∀ st ∈ Cart.trace s L,
            st ∈ Cart.serialStates (Cart.add_item_effect av it)
                  (Cart.add_item_effect av2 it2) s) ∧
        (Cart.runSched s L =
            Cart.add_item_effect av it (Cart.add_item_effect av2 it2 s) ∨
         Cart.runSched s L =
            Cart.add_item_effect av2 it2 (Cart.add_item_effect av it s))) ∧
    (∀ L ∈ Cart.interleavings (Cart.remove_item_segments sk)
        (Cart.remove_item_segments sk2),
        (∀ st ∈ Cart.trace s L,
            st ∈ Cart.serialStates (Cart.remove_item_effect sk)
                  (Cart.remove_item_effect sk2) s) ∧
        (Cart.runSched s L =
            Cart.remove_item_effect sk (Cart.remove_item_effect sk2 s) ∨
         Cart.runSched s L =
            Cart.remove_item_effect sk2 (Cart.remove_item_effect sk s))) := by
  refine ⟨?_, ?_, ?_⟩
  · intro L hL
    simp only [Cart.interleavings, Cart.add_item_segments,
      Cart.remove_item_segments, List.map, List.cons_append, List.nil_append,
      List.mem_cons, List.not_mem_nil, or_false] at hL
    rcases hL with h | h | h <;> subst h <;>
      refine ⟨?_, ?_⟩ <;>
        simp [Cart.trace, Cart.runSched, Cart.serialStates]
  · intro L hL
    simp only [Cart.interleavings, Cart.add_item_segments,
      Cart.remove_item_segments, List.map, List.cons_append, List.nil_append,
      List.mem_cons, List.not_mem_nil, or_false] at hL
    rcases hL with h | h | h | h | h | h <;> subst h <;>
      refine ⟨?_, ?_⟩ <;>
        simp [Cart.trace, Cart.runSched, Cart.serialStates]
  · intro L hL
    simp only [Cart.interleavings, Cart.add_item_segments,
      Cart.remove_item_segments, List.map, List.cons_append, List.nil_append,
      List.mem_cons, List.not_mem_nil, or_false] at hL
    rcases hL with h | h <;> subst h <;>
      refine ⟨?_, ?_⟩ <;>
        simp [Cart.trace, Cart.runSched, Cart.serialStates]

/-- Witness for C9: a concrete interleaving of `add_item` and `remove_item`
segments on the fresh cart ends in one of the two serial results. -/
theorem update_mutex_C9_witness :
    Cart.runSched Cart.initialCart
        ((fun s => s) :: Cart.add_item_effect true Cart.itemA ::
          Cart.remove_item_effect "A" :: []) =
      Cart.add_item_effect true Cart.itemA
        (Cart.remove_item_effect "A" Cart.initialCart) ∨
    Cart.runSched Cart.initialCart
        ((fun s => s) :: Cart.add_item_effect true Cart.itemA ::
          Cart.remove_item_effect "A" :: []) =
      Cart.remove_item_effect "A"
        (Cart.add_item_effect true Cart.itemA Cart.initialCart) :=
  ((update_mutex_C9 Cart.initialCart true true Cart.itemA Cart.itemA "A" "A").1
    ((fun s => s) :: Cart.add_item_effect true Cart.itemA ::
      Cart.remove_item_effect "A" :: [])
    (by simp [Cart.interleavings, Cart.add_item_segments,
          Cart.remove_item_segments])).2

/-- C3: in `TripBookingSaga.run`, whenever a prefix of the booking steps
succeeds and the next step fails, exactly the compensations of the succeeded
steps are attempted, in exact reverse (LIFO) order of completion, each with
the booking id its forward step returned; the attempted calls do not depend on
the compensation outcomes, so a failing compensation (caught by the per-call
try/except) never prevents the remaining ones. -/
theorem saga_compensation_C3 (env : Saga.SagaEnv) (req : Saga.BookingRequest) :
    (∀ e, env.car = .error e → (Saga.TripBookingSaga_run env req).2 = []) ∧
    (∀ c e, env.car = .ok c → env.hotel = .error e →
        ((Saga.TripBookingSaga_run env req).2.map (fun x => (x.1, x.2.1))) =
          [("undo_book_car", c)]) ∧
    (∀ c h e, env.car = .ok c → env.hotel = .ok h → env.flight = .error e →
        ((Saga.TripBookingSaga_run env req).2.map (fun x => (x.1, x.2.1))) =
          [("undo_book_hotel", h), ("undo_book_car", c)]) := by
  refine ⟨?_, ?_, ?_⟩
  · intro e hc
    simp [Saga.TripBookingSaga_run, hc, Saga.run_compensations]
  · intro c e hc hh
    simp only [Saga.TripBookingSaga_run, hc, hh, List.reverse_cons,
      List.reverse_nil, List.nil_append]
    cases hco : Saga.run_compensation env "undo_book_car" c <;>
      simp [Saga.run_compensations, hco]
  · intro c h e hc hh hf
    simp only [Saga.TripBookingSaga_run, hc, hh, hf, List.reverse_cons,
      List.reverse_nil, List.nil_append, List.cons_append]
    cases hco1 : Saga.run_compensation env "undo_book_hotel" h <;>
      cases hco2 : Saga.run_compensation env "undo_book_car" c <;>
        simp [Saga.run_compensations, hco1, hco2]

/-- Witness for C3: the failed-booking demo (valid car and hotel, invalid
flight, compensations from the source activities) attempts exactly the hotel
then the car compensation with the recorded booking ids. -/
theorem saga_compensation_C3_witness :
    ((Saga.TripBookingSaga_run (Saga.sourceEnv Saga.test2Request)
        Saga.test2Request).2.map (fun x => (x.1, x.2.1))) =
      [("undo_book_hotel", "hotel_booking_hotel-002"),
       ("undo_book_car", "car_booking_car-002")] :=
  (saga_compensation_C3 (Saga.sourceEnv Saga.test2Request) Saga.test2Request).2.2
    "car_booking_car-002" "hotel_booking_hotel-002"
    "Invalid flight ID: invalid-flight" rfl rfl rfl

theorem invokeGo_all_fail (p : Retry.RetryPolicy) (act : Nat → Except Retry.AppError String)
    (e : Nat → Retry.AppError) (hact : ∀ n, act n = .error (e n))
    (hret : ∀ n, Retry.retryable p (e n) = true) :
    ∀ (rem attempt : Nat),
      Retry.invokeGo p act attempt rem =
        (.error { cause := e (attempt + rem) }, attempt + rem,
         (List.range rem).map (fun i => Retry.retryDelay p (attempt + i))) := by
  intro rem
  induction rem with
  | zero =>
      intro attempt
      simp [Retry.invokeGo, hact attempt]
  | succ m ih =>
      intro attempt
      simp only [Retry.invokeGo, hact attempt, hret attempt, if_true]
      rw [ih (attempt + 1)]
      simp only [Prod.mk.injEq]
      refine ⟨?_, ?_, ?_⟩
      · rw [show attempt + 1 + m = attempt + (m + 1) from by omega]
      · omega
      · rw [List.range_succ_eq_map, List.map_cons, List.map_map]
        refine congrArg₂ _ (by rw [Nat.add_zero]) ?_
        refine List.map_congr_left ?_
        intro i _
        simp only [Function.comp]
        rw [show attempt + 1 + i = attempt + (i + 1) from by omega]

/-- C6: for an activity whose every attempt fails retryably under a policy
with n = maximum_attempts ≥ 1 attempts, the invoker executes exactly n
attempts, the delay recorded before attempt i+1 equals
min(initial_interval × backoff_coefficient ^ (i-1), maximum_interval), and the
surfaced ActivityError wraps the final attempt's cause; concretely, with
maximum_attempts = 3, initial_interval = 1 s, backoff_coefficient = 2.0 the
always-failing activity runs 3 attempts with delays 1 s and 2 s and the error
wraps the third failure. -/
theorem retry_backoff_C6 :
    (∀ (p : Retry.RetryPolicy) (act : Nat → Except Retry.AppError String)
        (e : Nat → Retry.AppError),
        1 ≤ p.maximum_attempts →
        (∀ n, act n = .error (e n)) →
        (∀ n, Retry.retryable p (e n) = true) →
        Retry.invoke p act =
          (.error { cause := e p.maximum_attempts }, p.maximum_attempts,
           (List.range (p.maximum_attempts - 1)).map
             (fun i => min (p.initial_interval * p.backoff_coefficient ^ i)
                 p.maximum_interval))) ∧
    Retry.invoke Retry.demoPolicy Retry.transientFailure =
      (.error { cause := Retry.transientError 3 }, 3,
       [(1 : ℚ), (2 : ℚ)]) := by
  constructor
  · intro p act e hm hact hret
    rw [Retry.invoke, invokeGo_all_fail p act e hact hret]
    rw [show 1 + (p.maximum_attempts - 1) = p.maximum_attempts from by omega]
    refine congrArg _ (congrArg _ ?_)
    refine List.map_congr_left ?_
    intro i _
    simp [Retry.retryDelay]
  · norm_num [Retry.invoke, Retry.invokeGo, Retry.retryable,
      Retry.transientFailure, Retry.transientError, Retry.demoPolicy,
      Retry.retryDelay, min_def, List.range_succ]

/-- Witness for C6: the general retry law applied to the concrete policy
{maximum_attempts = 3, initial_interval = 1 s, backoff_coefficient = 2.0} and
the always-failing transient activity. -/
theorem retry_backoff_C6_witness :
    Retry.invoke Retry.demoPolicy Retry.transientFailure =
      (.error { cause := Retry.transientError Retry.demoPolicy.maximum_attempts },
       Retry.demoPolicy.maximum_attempts,
       (List.range (Retry.demoPolicy.maximum_attempts - 1)).map
         (fun i => min (Retry.demoPolicy.initial_interval *
             Retry.demoPolicy.backoff_coefficient ^ i)
           Retry.demoPolicy.maximum_interval)) :=
  retry_backoff_C6.1 Retry.demoPolicy Retry.transientFailure Retry.transientError
    (by decide) (fun _ => rfl) (fun _ => rfl)

/-- C7: an activity whose failure carries the non-retryable flag (as
`non_retryable_operation` raises ApplicationError with non_retryable=True) is
executed exactly once regardless of the policy's maximum_attempts, with no
backoff delays, and the failure surfaces as a catchable ActivityError value
wrapping that cause; concretely so under RetryPolicy(maximum_attempts=5). -/
theorem non_retryable_C7 :
    (∀ p : Retry.RetryPolicy,
        Retry.invoke p Retry.non_retryable_operation =
          (.error { cause := Retry.nrError }, 1, [])) ∧
    Retry.invoke Retry.test4Policy Retry.non_retryable_operation =
      (.error { cause := Retry.nrError }, 1, []) := by
  constructor
  · intro p
    rw [Retry.invoke]
    cases h : p.maximum_attempts - 1 <;>
      simp [Retry.invokeGo, Retry.non_retryable_operation, Retry.retryable,
        Retry.nrError]
  · rfl

/-- C1: the Replay Executor is a pure function of the workflow code and the
event log, so replaying the same log twice with unchanged code yields the
identical resulting state and the identical command sequence; in particular,
replaying the history recorded by `UserSignupWorkflowV1` with the patched
`UserSignupWorkflowV2` code succeeds and takes the old (no-welcome-email)
branch, concretely so for the recorded test user. -/
theorem replay_determinism_C1 :
    (∀ (prog : Replay.WProg Replay.SignupResult) (L : List Replay.Event),
        Replay.replay Replay.encSignup prog L =
          Replay.replay Replay.encSignup prog L) ∧
    (∀ u : Replay.UserData,
        ∃ out, Replay.replay Replay.encSignup (Replay.UserSignupWorkflowV2_run u)
            (Replay.historyV1 u) = .ok out ∧ out.1.welcome_sent ≠ some true) ∧
    (∃ out, Replay.replay Replay.encSignup
        (Replay.UserSignupWorkflowV2_run Replay.testUser)
        (Replay.historyV1 Replay.testUser) = .ok out ∧
      out.1.welcome_sent = some false ∧ out.1.success = true) := by
  refine ⟨fun _ _ => rfl, ?_, ?_⟩
  · intro u
    cases hv : Replay.validate_user u with
    | false =>
        refine ⟨?_, ?_, ?_⟩
        · exact (Replay.SignupResult.mk false (some "Invalid user data") none none none,
            [Replay.Command.scheduleActivity "validate_user" (Replay.Val.vuser u),
             Replay.Command.completeWorkflow (Replay.encSignup
               (Replay.SignupResult.mk false (some "Invalid user data") none none none))])
        · simp [Replay.historyV1, Replay.freshHistory, Replay.execute,
            Replay.UserSignupWorkflowV1_run, Replay.UserSignupWorkflowV2_run,
            Replay.signupActs, Replay.replay, Replay.replayGo, Replay.Val.asBool, hv]
        · simp
    | true =>
        refine ⟨?_, ?_, ?_⟩
        · exact (Replay.SignupResult.mk true none
            (some ("account_" ++ u.user_id)) (some false) (some "v2"),
            [Replay.Command.scheduleActivity "validate_user" (Replay.Val.vuser u),
             Replay.Command.scheduleActivity "create_account" (Replay.Val.vuser u),
             Replay.Command.completeWorkflow (Replay.encSignup
               (Replay.SignupResult.mk true none
                 (some ("account_" ++ u.user_id)) (some false) (some "v2")))])
        · simp [Replay.historyV1, Replay.freshHistory, Replay.execute,
            Replay.UserSignupWorkflowV1_run, Replay.UserSignupWorkflowV2_run,
            Replay.signupActs, Replay.replay, Replay.replayGo, Replay.Val.asBool,
            Replay.Val.asStr, Replay.create_account, hv]
        · simp
  · exact ⟨(Replay.SignupResult.mk true none (some "account_user-test-001")
        (some false) (some "v2"),
      [Replay.Command.scheduleActivity "validate_user" (Replay.Val.vuser Replay.testUser),
       Replay.Command.scheduleActivity "create_account" (Replay.Val.vuser Replay.testUser),
       Replay.Command.completeWorkflow (Replay.Val.vsignup
         (Replay.SignupResult.mk true none (some "account_user-test-001")
           (some false) (some "v2")))]), rfl, rfl, rfl⟩

/-- C2: during a fresh execution pass, `patched(patch_id)` records a
PatchMarker (and the corresponding command) and answers true, so fresh
executions take the new code paths — fraud check and notification in
`OrderWorkflowVersioned`, welcome email in `UserSignupWorkflowV2`; during
replay of a log containing no PatchMarker for that patch id, `patched`
answers false, so the old code path is retaken — concretely, v2 replaying the
v1 log skips the welcome email. -/
theorem patch_gating_C2 :
    (∀ (α : Type) (enc : α → Replay.Val) (acts : String → Replay.Val → Replay.Val)
        (id : String) (k : Bool → Replay.WProg α),
        Replay.execute enc acts (Replay.WProg.patched id k) =
          ((Replay.execute enc acts (k true)).1,
           Replay.Event.patchMarker id :: (Replay.execute enc acts (k true)).2.1,
           Replay.Command.recordPatchMarker id ::
             (Replay.execute enc acts (k true)).2.2)) ∧
    (∀ (α : Type) (enc : α → Replay.Val) (id : String) (k : Bool → Replay.WProg α)
        (evs : List Replay.Event),
        (∀ e ∈ evs, e ≠ Replay.Event.patchMarker id) →
        Replay.replayGo enc (Replay.WProg.patched id k) evs =
          Replay.replayGo enc (k false) evs) ∧
    (Replay.execute Replay.encSignup Replay.signupActs
        (Replay.UserSignupWorkflowV2_run Replay.testUser)).1.welcome_sent =
      some true ∧
    (Replay.execute Replay.encOrder Replay.orderActs
          (Replay.OrderWorkflowVersioned_run Replay.testOrder)).1.fraud_checked =
        true ∧
      (Replay.execute Replay.encOrder Replay.orderActs
          (Replay.OrderWorkflowVersioned_run Replay.testOrder)).1.notification_sent =
        true ∧
      (Replay.execute Replay.encOrder Replay.orderActs
          (Replay.OrderWorkflowVersioned_run Replay.testOrder)).1.version = "v3" ∧
    (∃ out, Replay.replay Replay.encSignup
        (Replay.UserSignupWorkflowV2_run Replay.testUser)
        (Replay.historyV1 Replay.testUser) = .ok out ∧
      out.1.welcome_sent = some false) := by
  have horder :
      (Replay.execute Replay.encOrder Replay.orderActs
          (Replay.OrderWorkflowVersioned_run Replay.testOrder)).1.fraud_checked = true ∧
      (Replay.execute Replay.encOrder Replay.orderActs
          (Replay.OrderWorkflowVersioned_run Replay.testOrder)).1.notification_sent = true ∧
      (Replay.execute Replay.encOrder Replay.orderActs
          (Replay.OrderWorkflowVersioned_run Replay.testOrder)).1.version = "v3" := by
    norm_num [Replay.execute, Replay.OrderWorkflowVersioned_run,
      Replay.OrderWorkflow_afterFraud, Replay.orderActs, Replay.check_fraud,
      Replay.process_payment, Replay.testOrder, Replay.Val.asPayment,
      Replay.Val.asFraud]
  refine ⟨?_, ?_, rfl, horder.1, horder.2.1, horder.2.2, ?_⟩
  · intro α enc acts id k
    simp [Replay.execute]
  · intro α enc id k evs hno
    cases evs with
    | nil => rfl
    | cons ev rest =>
        cases ev with
        | workflowStarted v => rfl
        | activityScheduled n a => rfl
        | activityCompleted r => rfl
        | workflowCompleted r => rfl
        | patchMarker pid =>
            have hne : ¬(pid = id) := by
              intro hc
              exact (hno _ (List.mem_cons_self _ _)) (by rw [hc])
            rw [Replay.replayGo]
            rw [if_neg hne]
  · exact ⟨(Replay.SignupResult.mk true none (some "account_user-test-001")
        (some false) (some "v2"),
      [Replay.Command.scheduleActivity "validate_user" (Replay.Val.vuser Replay.testUser),
       Replay.Command.scheduleActivity "create_account" (Replay.Val.vuser Replay.testUser),
       Replay.Command.completeWorkflow (Replay.Val.vsignup
         (Replay.SignupResult.mk true none (some "account_user-test-001")
           (some false) (some "v2")))]), rfl, rfl⟩

/-- Witness for C2: the replay-side gate applied to a patch id, a concrete
continuation and a one-event log holding no marker for that id. -/
theorem patch_gating_C2_witness :
    Replay.replayGo Replay.encSignup
        (Replay.WProg.patched "send-welcome-email"
          (fun _ => Replay.WProg.done Replay.sampleResult))
        [Replay.Event.workflowCompleted Replay.Val.vunit] =
      Replay.replayGo Replay.encSignup (Replay.WProg.done Replay.sampleResult)
        [Replay.Event.workflowCompleted Replay.Val.vunit] :=
  patch_gating_C2.2.1 Replay.SignupResult Replay.encSignup "send-welcome-email"
    (fun _ => Replay.WProg.done Replay.sampleResult)
    [Replay.Event.workflowCompleted Replay.Val.vunit]
    (by intro e he hc; simp at he; rw [he] at hc; cases hc)

/-- C8: replaying a log whose next recorded command differs from the command
the code issues (different activity name or arguments) fails with
NonDeterminismError rather than being silently patched; in particular
`UserSignupWorkflowV2Bad`, which invokes `create_account` before
`validate_user`, fails replay of every `UserSignupWorkflowV1` history. -/
theorem nondeterminism_C8 :
    (∀ (n n' : String) (a a' : Replay.Val)
        (k : Replay.Val → Replay.WProg Replay.SignupResult)
        (rest : List Replay.Event),
        ¬(n = n' ∧ a = a') →
        Replay.replayGo Replay.encSignup (Replay.WProg.execActivity n a k)
            (Replay.Event.activityScheduled n' a' :: rest) =
          .error .nonDeterminism) ∧
    (∀ u : Replay.UserData,
        Replay.replay Replay.encSignup (Replay.UserSignupWorkflowV2Bad_run u)
            (Replay.historyV1 u) = .error .nonDeterminism) := by
  constructor
  · intro n n' a a' k rest h
    rw [Replay.replayGo.eq_def]
    simp only []
    rw [if_neg h]
  · intro u
    simp only [Replay.replay, Replay.historyV1, Replay.freshHistory,
      Replay.execute, Replay.UserSignupWorkflowV1_run,
      Replay.UserSignupWorkflowV2Bad_run, Replay.signupActs]
    rw [Replay.replayGo.eq_def]
    simp only []
    rw [if_neg]
    intro hc
    exact absurd hc.1 (by decide)

/-- Witness for C8: the mismatch rule applied to the concrete pair of reversed
activities. -/
theorem nondeterminism_C8_witness :
    Replay.replayGo Replay.encSignup
        (Replay.WProg.execActivity "create_account" Replay.Val.vunit
          (fun _ => Replay.WProg.done Replay.sampleResult))
        [Replay.Event.activityScheduled "validate_user" Replay.Val.vunit] =
      .error .nonDeterminism :=
  nondeterminism_C8.1 "create_account" "validate_user" Replay.Val.vunit
    Replay.Val.vunit (fun _ => Replay.WProg.done Replay.sampleResult) []
    (by decide)
